import Mathlib

/-!
Verification of the feature-engineering and prediction pipeline of the
f1-predictor repository (src/backend/{fetch_data,build_features,app,train_model}.py).

The pandas / Python code is shallowly embedded as pure Lean functions over
lists of result records.  Machine floats are modelled with `ℚ` (the numeric
work is exact fractions: sums, means of at most five values, ratios of round
numbers), and pandas `NaN` cells with `Option ℚ`.  Python string operations
(`lower`, `strip`, `in`, `int(...)`) are modelled over the character lists of
Lean strings so that they evaluate inside the kernel.
-/

/-- A normalized race-result record, as produced by `get_results` in
`src/backend/fetch_data.py` (one row per (season, round, driver)) and by
`fetch_current_season_results_until_round` in `src/backend/app.py`.
`grid` is `Option ℚ` because the offline builder defends against missing
grid cells in the CSV (`df["grid"].fillna(...)`); rows built from the API
always carry `some` grid. -/
structure Row where
  season : Int
  round : Int
  race : String
  driver : String
  constructor : String
  position : Int
  grid : Option ℚ
  points : ℚ
  status : String
deriving DecidableEq, Repr, Inhabited

/-- Python `s.lower()`, as the lowercased character list of `s`. -/
def pyLower (s : String) : List Char := s.data.map Char.toLower

/-- Substring membership on character lists: `containsList pat s` is the
Python expression `pat in s` for strings (true for the empty pattern). -/
def containsList (pat : List Char) : List Char → Bool
  | [] => pat.isEmpty
  | c :: rest => pat.isPrefixOf (c :: rest) || containsList pat rest

/-- Python `pat in s` where `s` is an already-lowered character list. -/
def pyContains (s : List Char) (pat : String) : Bool := containsList pat.data s

/-- Python `s.strip()` on a character list: drop whitespace on both ends. -/
def trimChars (s : List Char) : List Char :=
  ((s.dropWhile Char.isWhitespace).reverse.dropWhile Char.isWhitespace).reverse

/-- Python `s.strip()`. -/
def pyStrip (s : String) : String := ⟨trimChars s.data⟩

/-- Decimal digits to a number; `none` unless the list is nonempty and all
digits. -/
def digits? (cs : List Char) : Option Nat :=
  if cs.isEmpty then none
  else cs.foldl (fun acc c =>
    acc.bind (fun n => if c.isDigit then some (10 * n + (c.toNat - 48)) else none)) (some 0)

/-- Python `int(s)` on a string: optional surrounding whitespace, optional
sign, decimal digits; `none` when the conversion raises `ValueError`.
(Python also accepts underscore digit separators; that nicety is not
modelled.) -/
def pyStrToInt (s : String) : Option Int :=
  match trimChars s.data with
  | '-' :: rest => (digits? rest).map (fun n => -(n : Int))
  | '+' :: rest => (digits? rest).map (fun n => (n : Int))
  | t => (digits? t).map (fun n => (n : Int))

/-- `src/backend/build_features.py` lines 14–21: a result counts as finished
when its lowercased status contains `"finish"`, a literal `"+"`, or `"lap"`. -/
def finished_mask (status : String) : Bool :=
  pyContains (pyLower status) "finish"
    || pyContains (pyLower status) "+"
    || pyContains (pyLower status) "lap"

/-- `src/backend/build_features.py` line 23: `df["dnf"] = (~finished_mask).astype(int)`. -/
def dnfFlag (status : String) : Int := if finished_mask status then 0 else 1

/-- `src/backend/app.py` lines 170–173 (`status_to_dnf`): 0 when the lowercased
status contains `"finish"`, `"+"` or `"lap"`, else 1. -/
def status_to_dnf (status : String) : Int :=
  if pyContains (pyLower status) "finish"
      || pyContains (pyLower status) "+"
      || pyContains (pyLower status) "lap"
    then 0 else 1

/-- Value of the pandas expression `g[col].cumsum() - df[col]` at one row,
where `prior` are the same-group values strictly before the row (in frame
order) and `x` is the row's own value: the running total up to and including
the row, minus the row's own value. -/
def cumsumMinusSelf (prior : List ℚ) (x : ℚ) : ℚ := (prior.sum + x) - x

/-- Value of the pandas expression `s.shift(1).rolling(5, min_periods=1).mean()`
at one row of a group, where `prior` are the same-group values strictly before
the row (in frame order).  After the shift the window holds the last at most
five prior values (a rolling mean skips the NaN the shift put at the group
head); with no prior value at all the result is NaN (`none`). -/
def shiftRoll5 (prior : List ℚ) : Option ℚ :=
  let w := prior.drop (prior.length - 5)
  if w.isEmpty then none else some (w.sum / (w.length : ℚ))

/-- Maximum of a list of integers (`none` on the empty list); used for the
pandas `groupby(...)["round"].max()` expressions. -/
def maxInt? : List Int → Option Int
  | [] => none
  | h :: t => some (t.foldl max h)

/-- pandas `Series.median()` with the default `skipna`: the middle element of
the sorted values, or the average of the two middle elements (`none` when the
series is empty). -/
def median (xs : List ℚ) : Option ℚ :=
  let s := xs.insertionSort (· ≤ ·)
  if s.length = 0 then none
  else if s.length % 2 = 1 then s.get? (s.length / 2)
  else
    match s.get? (s.length / 2 - 1), s.get? (s.length / 2) with
    | some a, some b => some ((a + b) / 2)
    | _, _ => none

/-- Grouping key of `df.groupby(["season", "driver"])`. -/
def sameDriver (a b : Row) : Bool := a.season == b.season && a.driver == b.driver

/-- Grouping key of `df.groupby(["season", "constructor"])`. -/
def sameTeam (a b : Row) : Bool := a.season == b.season && a.constructor == b.constructor

/-- Grouping key of `df.groupby("season")`. -/
def sameSeason (a b : Row) : Bool := a.season == b.season

/-- One output row of `src/backend/build_features.py`: the eight feature
columns (in the order of `feat_cols`), the training label and the season. -/
structure FeatRow where
  grid : ℚ
  drv_pts_to_date : ℚ
  drv_roll_pts_5 : ℚ
  drv_roll_pos_5 : ℚ
  drv_roll_dnf_5 : ℚ
  con_pts_to_date : ℚ
  con_roll_pts_5 : ℚ
  round_norm : ℚ
  win : ℚ
  season : Int
deriving DecidableEq, Repr, Inhabited

/-- The offline Feature Builder (`src/backend/build_features.py`), evaluated
at row `i` of the results table.  `rows` is the frame after the
`sort_values(["season", "round"])` on line 8 (pandas' default quicksort fixes
no order among rows of equal (season, round); theorems about round-based
facts therefore carry explicit sortedness hypotheses).  Groupby preserves
frame order inside each group, so the prior part of row `i`'s group is the
filtered prefix before `i`.  The final `fillna(0)` on line 48 turns the NaN
(`none`) rolling values of a group's first row, and a grid cell left NaN by
an empty median, into 0. -/
def featAt (rows : List Row) (i : Nat) : FeatRow :=
  match rows.get? i with
  | none => default
  | some r =>
    let priorD := (rows.take i).filter (fun x => sameDriver x r)
    let priorC := (rows.take i).filter (fun x => sameTeam x r)
    { grid := (match r.grid with
        | some g => some g
        | none => median (rows.filterMap Row.grid)).getD 0
      drv_pts_to_date := cumsumMinusSelf (priorD.map Row.points) r.points
      drv_roll_pts_5 := (shiftRoll5 (priorD.map Row.points)).getD 0
      drv_roll_pos_5 := (shiftRoll5 (priorD.map (fun x => (x.position : ℚ)))).getD 0
      drv_roll_dnf_5 := (shiftRoll5 (priorD.map (fun x => ((dnfFlag x.status : Int) : ℚ)))).getD 0
      con_pts_to_date := cumsumMinusSelf (priorC.map Row.points) r.points
      con_roll_pts_5 := (shiftRoll5 (priorC.map Row.points)).getD 0
      round_norm := (r.round : ℚ) /
        (((maxInt? ((rows.filter (fun x => sameSeason x r)).map Row.round)).getD 0 : Int) : ℚ)
      win := if r.position = 1 then 1 else 0
      season := r.season }

/-- The whole offline feature table (`features.csv`). -/
def buildFeatures (rows : List Row) : List FeatRow :=
  (List.range rows.length).map (featAt rows)

/-- One entry of the `grid_rows` argument of
`build_live_features_for_next_race` in `src/backend/app.py`: driver,
constructor and starting grid position. -/
structure GridRow where
  driver : String
  constructor : String
  grid : Int
deriving DecidableEq, Repr, Inhabited

/-- One output row of `build_live_features_for_next_race`: the eight feature
columns plus the identity columns (`feature_order + ["driver", "constructor",
"season"]`). -/
structure LiveFeat where
  grid : ℚ
  drv_pts_to_date : ℚ
  drv_roll_pts_5 : ℚ
  drv_roll_pos_5 : ℚ
  drv_roll_dnf_5 : ℚ
  con_pts_to_date : ℚ
  con_roll_pts_5 : ℚ
  round_norm : ℚ
  driver : String
  constructor : String
  season : Int
deriving DecidableEq, Repr, Inhabited

/-- `fetch_current_season_results_until_round` in `src/backend/app.py`
(lines 146–168): keep the rows of the season's result table whose round is
at most `lastInc` (the loop skips `rnd > last_round_inclusive`) and stamp the
requested season onto each row. -/
def fetchUntil (races : List Row) (season lastInc : Int) : List Row :=
  (races.filter (fun r => decide (r.round ≤ lastInc))).map
    (fun r => { r with season := season })

/-- Features of the most recent fetched row of one driver group, as the
left-merge on `last_driver` (lines 216–224 of `src/backend/app.py`) attaches
them to a grid entry.  `grp` is the driver's group in frame order; under the
round-sorted frame its last element is the row `groupby("driver").tail(1)`
selects, and that row's strictly-prior group rows are everything but the
last.  An empty group is a driver absent from the merge, whose NaN features
`fillna(0.0)` zeroes. -/
def lastPtsToDate (grp : List Row) : ℚ :=
  match grp.getLast? with
  | none => 0
  | some r => cumsumMinusSelf (grp.dropLast.map Row.points) r.points

/-- Rolling-mean feature of the most recent fetched row of a group (see
`lastPtsToDate`); `f` extracts the averaged column. -/
def lastRoll (f : Row → ℚ) (grp : List Row) : ℚ :=
  match grp.getLast? with
  | none => 0
  | some _ => (shiftRoll5 (grp.dropLast.map f)).getD 0

/-- `build_live_features_for_next_race` in `src/backend/app.py`
(lines 175–235).  `races` is the season's raw result table; the embedding
takes it in the (season, round)-sorted order the `sort_values` on line 196
establishes (pandas' quicksort fixes no order among rows of one round, so
round-sensitive theorems carry sortedness hypotheses).  With no history every
feature is zero and grid/identity pass through (lines 183–194).  Otherwise
each grid entry is left-merged with the feature values of the driver's and
the constructor's most recent fetched row, missing matches become 0
(`fillna(0.0)`), and `round_norm` is `next_round / max fetched round`
(lines 211–213; the `.get(season, ...)` default is dead because every fetched
row carries the requested season). -/
def build_live_features_for_next_race (races : List Row) (season next_round : Int)
    (grid_rows : List GridRow) : List LiveFeat :=
  let hist := fetchUntil races season (next_round - 1)
  if hist.isEmpty then
    grid_rows.map (fun g =>
      { grid := (g.grid : ℚ), drv_pts_to_date := 0, drv_roll_pts_5 := 0,
        drv_roll_pos_5 := 0, drv_roll_dnf_5 := 0, con_pts_to_date := 0,
        con_roll_pts_5 := 0, round_norm := 0,
        driver := g.driver, constructor := g.constructor, season := season })
  else
    let maxR : Int :=
      (maxInt? ((hist.filter (fun r => r.season == season)).map Row.round)).getD
        (next_round - 1)
    let rnorm : ℚ := if 0 < maxR then (next_round : ℚ) / (maxR : ℚ) else 0
    grid_rows.map (fun g =>
      let dGrp := hist.filter (fun r => r.driver == g.driver)
      let cGrp := hist.filter (fun r => r.constructor == g.constructor)
      { grid := (g.grid : ℚ)
        drv_pts_to_date := lastPtsToDate dGrp
        drv_roll_pts_5 := lastRoll Row.points dGrp
        drv_roll_pos_5 := lastRoll (fun x => (x.position : ℚ)) dGrp
        drv_roll_dnf_5 := lastRoll (fun x => ((status_to_dnf x.status : Int) : ℚ)) dGrp
        con_pts_to_date := lastPtsToDate cGrp
        con_roll_pts_5 := lastRoll Row.points cGrp
        round_norm := rnorm
        driver := g.driver
        constructor := g.constructor
        season := season })

/-- A JSON value as it can appear in the `grid` field of one entry of the
request body of `POST /api/predict-next-race-with-grid` (integers, strings,
or null / a missing key). -/
inductive JVal where
  | jint (n : Int)
  | jstr (s : String)
  | jnull
deriving DecidableEq, Repr

/-- Python `int(v)` on such a value: integers pass through, strings are
parsed as decimal integers, `None` raises (`none`). -/
def pyInt : JVal → Option Int
  | .jint n => some n
  | .jstr s => pyStrToInt s
  | .jnull => none

/-- One caller-supplied row of the request body: the handler reads only
`row.get("driver", "")` and `row.get("grid")`; a caller-supplied
`constructor` value may be present but is never read. -/
structure UserRow where
  driver : Option String
  grid : JVal
  constructor : Option String
deriving DecidableEq, Repr

/-- One structured validation error (`{"index": i, "driver": drv, "issue": ...}`). -/
structure VErr where
  index : Nat
  driver : String
  issue : String
deriving DecidableEq, Repr

/-- One validated entry (`{"driver": drv, "constructor": team, "grid": grid}`). -/
structure ValRow where
  driver : String
  constructor : String
  grid : Int
deriving DecidableEq, Repr

/-- `str(row.get("driver", "")).strip()`. -/
def drvName (r : UserRow) : String := pyStrip (r.driver.getD "")

/-- The validation loop of `predict_next_race_with_grid`
(`src/backend/app.py` lines 326–341), started at index `i`: an entry whose
stripped driver name is not a key of the canonical map contributes an
`unknown_driver` error, one whose grid value `int(...)` rejects contributes
an `invalid_grid` error, and the rest become validated rows with the
constructor taken from the canonical map (`canon[drv]["constructor"]`;
the `or ""` is the identity on the string values stored there). -/
def validateFrom (canon : List (String × String)) :
    Nat → List UserRow → List ValRow × List VErr
  | _, [] => ([], [])
  | i, r :: rest =>
    let acc := validateFrom canon (i + 1) rest
    match canon.lookup (drvName r) with
    | none =>
      (acc.1, { index := i, driver := drvName r, issue := "unknown_driver" } :: acc.2)
    | some team =>
      match pyInt r.grid with
      | none =>
        (acc.1, { index := i, driver := drvName r, issue := "invalid_grid" } :: acc.2)
      | some g => ({ driver := drvName r, constructor := team, grid := g } :: acc.1, acc.2)

/-- The validation loop from its start (`for i, row in enumerate(user_rows)`). -/
def validate (canon : List (String × String)) (user_rows : List UserRow) :
    List ValRow × List VErr :=
  validateFrom canon 0 user_rows

/-- One returned prediction record (driver, constructor, grid, rounded win
probability). -/
structure PredRow where
  driver : String
  constructor : String
  grid : Int
  win_probability : ℚ
deriving DecidableEq, Repr

/-- The possible response shapes of `POST /api/predict-next-race-with-grid`. -/
inductive Response where
  | noUpcoming
  | missingGrid
  | noRoster
  | validationFailed (errors : List VErr)
  | ok (predictions : List PredRow)
deriving DecidableEq, Repr

/-- `np.round(p, 3)` on an exact probability (`round` here is round-half-up;
NumPy's half-to-even tie rule differs only at exact half-thousandths, which
no claim exercises). -/
def round3 (q : ℚ) : ℚ := ((round (q * 1000) : ℤ) : ℚ) / 1000

/-- The ordered feature vector `feats[feature_order]` handed to the model. -/
def featVec (f : LiveFeat) : List ℚ :=
  [f.grid, f.drv_pts_to_date, f.drv_roll_pts_5, f.drv_roll_pos_5,
   f.drv_roll_dnf_5, f.con_pts_to_date, f.con_roll_pts_5, f.round_norm]

/-- Insert into a descending list, after existing entries of equal
probability. -/
def insertDesc (p : PredRow) : List PredRow → List PredRow
  | [] => [p]
  | q :: rest =>
    if q.win_probability < p.win_probability then p :: q :: rest
    else q :: insertDesc p rest

/-- Stand-in for `out.sort_values("win_probability", ascending=False)`:
a deterministic descending sort.  pandas uses NumPy's quicksort here, whose
order among rows of equal probability is unspecified; this embedding fixes
the stable order, so no theorem below rests on the tie order. -/
def sortDesc : List PredRow → List PredRow
  | [] => []
  | p :: rest => insertDesc p (sortDesc rest)

/-- The handler of `POST /api/predict-next-race-with-grid`
(`src/backend/app.py` lines 298–355), with the already-resolved next-race
metadata (`season`, `next_round`), the season result table `races`, the
canonical driver→constructor map `canon` (from `fetch_next_entry_map`), and
the persisted model abstracted as a probability function on the ordered
feature vector. -/
def predict_next_race_with_grid (races : List Row) (season next_round : Int)
    (canon : List (String × String)) (user_rows : List UserRow)
    (predictProb : List ℚ → ℚ) : Response :=
  if user_rows.isEmpty then .missingGrid
  else if canon.isEmpty then .noRoster
  else
    let v := validate canon user_rows
    if v.2.isEmpty then
      let feats := build_live_features_for_next_race races season next_round
        (v.1.map (fun w => { driver := w.driver, constructor := w.constructor, grid := w.grid }))
      let preds := (feats.zip v.1).map (fun fv =>
        { driver := fv.1.driver, constructor := fv.1.constructor, grid := fv.2.grid,
          win_probability := round3 (predictProb (featVec fv.1)) })
      .ok (sortDesc preds)
    else .validationFailed v.2

/-- Outcome of one `get_results(y)` call in `src/backend/fetch_data.py`: a
result table, or a raised `requests.HTTPError` (from `raise_for_status`), or
any other raised exception — connection errors, timeouts and the like, which
are `requests.RequestException`s but not `HTTPError`s. -/
inductive FetchOutcome where
  | ok (rows : List Row)
  | httpError (msg : String)
  | netError (msg : String)
deriving DecidableEq, Repr

/-- The season loop of `src/backend/fetch_data.py` (lines 37–46): each
season's table is appended when nonempty; a raised `requests.HTTPError` is
caught, printed and skipped; any other exception is uncaught, so the process
dies and no combined output exists (`none`). -/
def fetchSeasons (get_results : Int → FetchOutcome) : List Int → Option (List (List Row))
  | [] => some []
  | y :: ys =>
    match get_results y with
    | .ok df => (fetchSeasons get_results ys).map
        (fun frames => if df.isEmpty then frames else df :: frames)
    | .httpError _ => fetchSeasons get_results ys
    | .netError _ => none

example : status_to_dnf "Engine" = 1 := by decide
example : status_to_dnf "+1 Lap" = 0 := by decide
example : status_to_dnf "Finished" = 0 := by decide
example : dnfFlag "Lapped" = 0 := by decide
example : dnfFlag "Accident" = 1 := by decide
example : pyStrip " Max Verstappen " = "Max Verstappen" := by decide
example : pyStrToInt "12" = some 12 := by decide
example : pyStrToInt "-3" = some (-3) := by decide
example : pyStrToInt "3.5" = none := by decide
example : pyStrToInt "" = none := by decide
example : shiftRoll5 [25, 18, 0] = some (43 / 3) := by norm_num [shiftRoll5]
example : shiftRoll5 [] = none := by rfl
example : shiftRoll5 [1, 2, 3, 4, 5, 6] = some 4 := by norm_num [shiftRoll5]
example : median [3, 1, 2] = some 2 := by norm_num [median]
example : median [4, 1, 2, 3] = some (5 / 2) := by norm_num [median]
example : median [] = none := by rfl
example : cumsumMinusSelf [10, 0] 4 = 10 := by norm_num [cumsumMinusSelf]

/-- A concrete finished result row, for witnesses and counterexamples. -/
def mkRow (season round : Int) (driver team : String) (position : Int)
    (points : ℚ) : Row :=
  { season := season, round := round, race := "GP", driver := driver,
    constructor := team, position := position, grid := some 1,
    points := points, status := "Finished" }

example :
    (build_live_features_for_next_race
        [mkRow 2024 1 "A" "T" 1 10, mkRow 2024 2 "A" "T" 1 25]
        2024 2 [{ driver := "A", constructor := "T", grid := 1 }]).map
      LiveFeat.drv_pts_to_date = [0] := by
  norm_num [build_live_features_for_next_race, fetchUntil, mkRow, lastPtsToDate,
    cumsumMinusSelf, maxInt?]

example :
    (featAt [mkRow 2024 1 "A" "T" 1 10, mkRow 2024 2 "A" "T" 2 25]
      1).drv_pts_to_date = 10 := by
  norm_num [featAt, mkRow, sameDriver, cumsumMinusSelf]

example :
    (build_live_features_for_next_race
        [mkRow 2024 6 "A" "T" 1 25, mkRow 2024 7 "A" "T" 2 18,
         mkRow 2024 8 "A" "T" 11 0, mkRow 2024 9 "A" "T" 12 0]
        2024 10 [{ driver := "A", constructor := "T", grid := 1 }]).map
      LiveFeat.drv_roll_pts_5 = [43 / 3] := by
  norm_num [build_live_features_for_next_race, fetchUntil, mkRow, lastRoll,
    shiftRoll5, maxInt?]

theorem getAt (pre post : List Row) (r : Row) :
    (pre ++ r :: post).get? pre.length = some r := by
  induction pre with
  | nil => rfl
  | cons a t ih => simpa using ih

theorem takeAt (pre post : List Row) (r : Row) :
    (pre ++ r :: post).take pre.length = pre := by
  induction pre with
  | nil => rfl
  | cons a t ih => simp [ih]

theorem cumsumMinusSelf_eq (prior : List ℚ) (x : ℚ) :
    cumsumMinusSelf prior x = prior.sum := by
  simp [cumsumMinusSelf]

theorem maxInt?_spec (h : Int) (t : List Int) :
    ∃ M, maxInt? (h :: t) = some M ∧ M ∈ h :: t ∧ ∀ x ∈ h :: t, x ≤ M := by
  induction t generalizing h with
  | nil => exact ⟨h, rfl, by simp, by simp⟩
  | cons a t ih =>
    obtain ⟨M, hM, hmem, hle⟩ := ih (max h a)
    refine ⟨M, ?_, ?_, ?_⟩
    · simp only [maxInt?] at hM ⊢
      simpa using hM
    · rcases List.mem_cons.mp hmem with h1 | h1
      · rcases max_choice h a with h2 | h2 <;> simp [h1, h2]
      · simp [h1]
    · intro x hx
      rcases List.mem_cons.mp hx with h1 | h1
      · exact h1 ▸ le_trans (le_max_left h a) (hle _ (List.mem_cons_self _ _))
      rcases List.mem_cons.mp h1 with h2 | h2
      · exact h2 ▸ le_trans (le_max_right h a) (hle _ (List.mem_cons_self _ _))
      · exact hle _ (List.mem_cons_of_mem _ h2)

theorem dnf_eq (s : String) : dnfFlag s = status_to_dnf s := rfl

theorem sameDriver_self (r : Row) : sameDriver r r = true := by
  simp [sameDriver]

/-- The offline per-row cumulative feature, at a row placed after all
same-group rows of smaller round and before all of larger round, equals the
sum over the same-group rows of strictly smaller round. -/
theorem featAt_pts_before (pre post : List Row) (r : Row)
    (h1 : ∀ x ∈ pre, sameDriver x r = true → x.round < r.round)
    (h2 : ∀ x ∈ post, sameDriver x r = true → r.round < x.round) :
    (featAt (pre ++ r :: post) pre.length).drv_pts_to_date
      = (((pre ++ r :: post).filter
          (fun x => sameDriver x r && decide (x.round < r.round))).map Row.points).sum := by
  simp only [featAt, getAt, takeAt]
  rw [cumsumMinusSelf_eq, List.filter_append, List.filter_cons]
  have hr : (sameDriver r r && decide (r.round < r.round)) = false := by
    simp
  rw [hr]
  have hpost : (post.filter fun x => sameDriver x r && decide (x.round < r.round)) = [] := by
    refine List.filter_eq_nil_iff.mpr ?_
    intro x hx
    simp only [Bool.and_eq_true, decide_eq_true_eq, not_and]
    intro hsd
    exact not_lt_of_lt (h2 x hx hsd)
  rw [hpost]
  have hpre : (pre.filter fun x => sameDriver x r && decide (x.round < r.round))
      = pre.filter fun x => sameDriver x r := by
    refine List.filter_congr ?_
    intro x hx
    by_cases hsd : sameDriver x r = true
    · simp [hsd, h1 x hx hsd]
    · simp [Bool.eq_false_iff.mpr hsd]
  rw [hpre]
  simp

/-- Claim C3 (corrected).  Offline part, as claimed: with the rows of a
driver's season group ordered by round, `drv_pts_to_date` at a row equals the
sum of that driver's points in strictly earlier rounds of the season (for
points [10, 0, 4] the values are [0, 10, 10]).  Live part, as the code
actually behaves: the value the live path attaches to a driver at the target
round is the total points over the fetched rounds minus the points of the
driver's most recent fetched round — the most recent round's points are
missing, because the merge reuses the cumulative-before value computed at
that last row rather than a value computed for the target round. -/
theorem c3_pts_to_date :
    (∀ (pre post : List Row) (r : Row),
      (∀ x ∈ pre, sameDriver x r = true → x.round < r.round) →
      (∀ x ∈ post, sameDriver x r = true → r.round < x.round) →
      (featAt (pre ++ r :: post) pre.length).drv_pts_to_date
        = (((pre ++ r :: post).filter
            (fun x => sameDriver x r && decide (x.round < r.round))).map Row.points).sum)
    ∧ (∀ (races : List Row) (season next_round : Int) (g : GridRow)
        (dpre : List Row) (dlast : Row),
      (fetchUntil races season (next_round - 1)).isEmpty = false →
      (fetchUntil races season (next_round - 1)).filter
          (fun x => x.driver == g.driver) = dpre ++ [dlast] →
      (build_live_features_for_next_race races season next_round [g]).map
          LiveFeat.drv_pts_to_date
        = [((dpre ++ [dlast]).map Row.points).sum - dlast.points]) := by
  refine ⟨featAt_pts_before, ?_⟩
  intro races season next_round g dpre dlast hne hgrp
  simp only [build_live_features_for_next_race, hne, Bool.false_eq_true, if_false,
    List.map_cons, List.map_nil, hgrp, lastPtsToDate, List.getLast?_concat,
    List.dropLast_concat, cumsumMinusSelf_eq]
  simp

/-- Claim C3, counterexample to the live half: a driver with points
[10, 0, 4] in rounds 1–3 and target round 4.  The sum of the points in
rounds strictly before round 4 is 14, but the live path attaches 10 (the
cumulative-before value of the last fetched row, which omits that row's own
4 points). -/
theorem c3_counterexample :
    (build_live_features_for_next_race
        [mkRow 2024 1 "A" "T" 1 10, mkRow 2024 2 "A" "T" 1 0,
         mkRow 2024 3 "A" "T" 1 4]
        2024 4 [{ driver := "A", constructor := "T", grid := 1 }]).map
      LiveFeat.drv_pts_to_date = [10]
    ∧ (((fetchUntil
          [mkRow 2024 1 "A" "T" 1 10, mkRow 2024 2 "A" "T" 1 0,
           mkRow 2024 3 "A" "T" 1 4] 2024 3).filter
        (fun x => x.driver == "A")).map Row.points).sum = 14
    ∧ (10 : ℚ) ≠ 14 := by
  refine ⟨?_, ?_, by norm_num⟩
  · norm_num [build_live_features_for_next_race, fetchUntil, mkRow,
      lastPtsToDate, cumsumMinusSelf, maxInt?]
  · norm_num [fetchUntil, mkRow]

/-- Witness for `c3_pts_to_date` at the [10, 0, 4] example: the offline row
for round 3 carries 10 cumulative points, and the live value attached for
target round 4 is 14 − 4. -/
theorem c3_witness :
    (featAt
        ([mkRow 2024 1 "A" "T" 1 10, mkRow 2024 2 "A" "T" 1 0]
          ++ mkRow 2024 3 "A" "T" 1 4 :: [])
        2).drv_pts_to_date
      = ((([mkRow 2024 1 "A" "T" 1 10, mkRow 2024 2 "A" "T" 1 0]
            ++ mkRow 2024 3 "A" "T" 1 4 :: []).filter
          (fun x => sameDriver x (mkRow 2024 3 "A" "T" 1 4)
            && decide (x.round < (mkRow 2024 3 "A" "T" 1 4).round))).map Row.points).sum
    ∧ (build_live_features_for_next_race
          [mkRow 2024 1 "A" "T" 1 10, mkRow 2024 2 "A" "T" 1 0,
           mkRow 2024 3 "A" "T" 1 4]
          2024 4 [{ driver := "A", constructor := "T", grid := 1 }]).map
        LiveFeat.drv_pts_to_date
      = [((([mkRow 2024 1 "A" "T" 1 10, mkRow 2024 2 "A" "T" 1 0]
            ++ [mkRow 2024 3 "A" "T" 1 4]).map Row.points).sum
          - (mkRow 2024 3 "A" "T" 1 4).points)] := by
  refine ⟨c3_pts_to_date.1 _ _ _ (by decide) (by decide), ?_⟩
  refine c3_pts_to_date.2 _ _ _ _ _ _ (by decide) ?_
  decide

/-- Claim C4 (corrected).  Offline part, as claimed: the three per-driver
rolling means at a row never use the row's own result or anything after it —
replacing the row's result columns (same season and driver, arbitrary
position, points, status, everything after the row arbitrary) leaves all
three rolling features unchanged.  Live part, as the code actually behaves:
in the claimed scenario (driver "A", points [25, 18, 0, 0] in rounds 6–9,
target round 10) the attached `drv_pts_to_date` is 43 as claimed, but
`drv_roll_pts_5` is mean(25, 18, 0) = 43/3, not mean(25, 18, 0, 0) = 10.75:
the live path reuses the rolling mean computed at the round-9 row, which
excludes round 9 itself. -/
theorem c4_roll_prior_only :
    (∀ (pre post post' : List Row) (r r' : Row),
      r.season = r'.season → r.driver = r'.driver →
      ((featAt (pre ++ r :: post) pre.length).drv_roll_pts_5,
        (featAt (pre ++ r :: post) pre.length).drv_roll_pos_5,
        (featAt (pre ++ r :: post) pre.length).drv_roll_dnf_5)
      = ((featAt (pre ++ r' :: post') pre.length).drv_roll_pts_5,
        (featAt (pre ++ r' :: post') pre.length).drv_roll_pos_5,
        (featAt (pre ++ r' :: post') pre.length).drv_roll_dnf_5))
    ∧ ((build_live_features_for_next_race
          [mkRow 2024 6 "A" "T" 1 25, mkRow 2024 7 "A" "T" 2 18,
           mkRow 2024 8 "A" "T" 11 0, mkRow 2024 9 "A" "T" 12 0]
          2024 10 [{ driver := "A", constructor := "T", grid := 3 }]).map
        LiveFeat.drv_pts_to_date = [43]
      ∧ (build_live_features_for_next_race
          [mkRow 2024 6 "A" "T" 1 25, mkRow 2024 7 "A" "T" 2 18,
           mkRow 2024 8 "A" "T" 11 0, mkRow 2024 9 "A" "T" 12 0]
          2024 10 [{ driver := "A", constructor := "T", grid := 3 }]).map
        LiveFeat.drv_roll_pts_5 = [43 / 3]) := by
  refine ⟨?_, ?_, ?_⟩
  · intro pre post post' r r' hs hd
    have hf : (fun x => sameDriver x r) = (fun x => sameDriver x r') := by
      funext x
      simp [sameDriver, hs, hd]
    simp only [featAt, getAt, takeAt, hf]
  · norm_num [build_live_features_for_next_race, fetchUntil, mkRow,
      lastPtsToDate, cumsumMinusSelf, maxInt?]
  · norm_num [build_live_features_for_next_race, fetchUntil, mkRow, lastRoll,
      shiftRoll5, maxInt?]

/-- Claim C4, counterexample to the claimed scenario value: with driver "A"
scoring [25, 18, 0, 0] in rounds 6–9 and target round 10, the live
`drv_roll_pts_5` is 43/3, not the claimed 10.75 = 43/4. -/
theorem c4_counterexample :
    (build_live_features_for_next_race
        [mkRow 2024 6 "A" "T" 1 25, mkRow 2024 7 "A" "T" 2 18,
         mkRow 2024 8 "A" "T" 11 0, mkRow 2024 9 "A" "T" 12 0]
        2024 10 [{ driver := "A", constructor := "T", grid := 3 }]).map
      LiveFeat.drv_roll_pts_5 = [43 / 3]
    ∧ (43 / 3 : ℚ) ≠ 43 / 4 := by
  refine ⟨?_, by norm_num⟩
  norm_num [build_live_features_for_next_race, fetchUntil, mkRow, lastRoll,
    shiftRoll5, maxInt?]

/-- Witness for `c4_roll_prior_only`: replacing the round-2 row's own result
(position 1, points 25 → position 5, points 0, with a round-3 row appended)
leaves the rolling features at that row unchanged. -/
theorem c4_witness :
    ((featAt ([mkRow 2024 1 "A" "T" 1 10] ++ mkRow 2024 2 "A" "T" 1 25 :: []) 1).drv_roll_pts_5,
      (featAt ([mkRow 2024 1 "A" "T" 1 10] ++ mkRow 2024 2 "A" "T" 1 25 :: []) 1).drv_roll_pos_5,
      (featAt ([mkRow 2024 1 "A" "T" 1 10] ++ mkRow 2024 2 "A" "T" 1 25 :: []) 1).drv_roll_dnf_5)
    = ((featAt ([mkRow 2024 1 "A" "T" 1 10]
          ++ mkRow 2024 2 "A" "T" 5 0 :: [mkRow 2024 3 "A" "T" 1 9]) 1).drv_roll_pts_5,
      (featAt ([mkRow 2024 1 "A" "T" 1 10]
          ++ mkRow 2024 2 "A" "T" 5 0 :: [mkRow 2024 3 "A" "T" 1 9]) 1).drv_roll_pos_5,
      (featAt ([mkRow 2024 1 "A" "T" 1 10]
          ++ mkRow 2024 2 "A" "T" 5 0 :: [mkRow 2024 3 "A" "T" 1 9]) 1).drv_roll_dnf_5) :=
  c4_roll_prior_only.1 [mkRow 2024 1 "A" "T" 1 10] [] [mkRow 2024 3 "A" "T" 1 9]
    (mkRow 2024 2 "A" "T" 1 25) (mkRow 2024 2 "A" "T" 5 0) rfl rfl

theorem fetchUntil_season (races : List Row) (s l : Int) :
    ∀ x ∈ fetchUntil races s l, x.season = s := by
  intro x hx
  simp only [fetchUntil, List.mem_map] at hx
  obtain ⟨y, _, rfl⟩ := hx
  rfl

/-- Claim C1 (corrected): the offline and live paths are not numerically
identical on a shared result set; what does hold is that the live path's
driver features for a target round equal the offline algorithm's feature
values at the driver's most recent fetched row (`featAt` at that row's
position), which exclude that row's own result — not the values the offline
path computes for the target-round row itself.  Here `r` is the driver's last
fetched row: the fetched history splits as `pre ++ r :: post` with no row of
the driver in `post`. -/
theorem c1_live_reuses_last_row (races : List Row) (season next_round : Int)
    (g : GridRow) (pre post : List Row) (r : Row)
    (hh : fetchUntil races season (next_round - 1) = pre ++ r :: post)
    (hr : (r.driver == g.driver) = true)
    (hpost : ∀ x ∈ post, (x.driver == g.driver) = false) :
    (build_live_features_for_next_race races season next_round [g]).map
        (fun f => (f.drv_pts_to_date, f.drv_roll_pts_5, f.drv_roll_pos_5, f.drv_roll_dnf_5))
      = [((featAt (pre ++ r :: post) pre.length).drv_pts_to_date,
          (featAt (pre ++ r :: post) pre.length).drv_roll_pts_5,
          (featAt (pre ++ r :: post) pre.length).drv_roll_pos_5,
          (featAt (pre ++ r :: post) pre.length).drv_roll_dnf_5)] := by
  have hne : (fetchUntil races season (next_round - 1)).isEmpty = false := by
    rw [hh]
    cases pre <;> rfl
  have hseas : ∀ x ∈ pre ++ r :: post, x.season = season := by
    intro x hx
    exact fetchUntil_season races season _ x (hh ▸ hx)
  have hrs : r.season = season := hseas r (by simp)
  have hgrp : (fetchUntil races season (next_round - 1)).filter
      (fun x => x.driver == g.driver)
      = (pre.filter (fun x => sameDriver x r)) ++ [r] := by
    rw [hh, List.filter_append, List.filter_cons]
    have h1 : post.filter (fun x => x.driver == g.driver) = [] := by
      refine List.filter_eq_nil_iff.mpr ?_
      intro x hx
      simp [hpost x hx]
    have h2 : pre.filter (fun x => x.driver == g.driver)
        = pre.filter (fun x => sameDriver x r) := by
      refine List.filter_congr ?_
      intro x hx
      have hxs : x.season = season := hseas x (List.mem_append_left _ hx)
      have hrd : r.driver = g.driver := by simpa using hr
      simp [sameDriver, hxs, hrs, hrd]
    rw [h1, h2, hr]
    simp
  simp only [build_live_features_for_next_race, hne, Bool.false_eq_true, if_false,
    List.map_cons, List.map_nil, hgrp, lastPtsToDate, lastRoll,
    List.getLast?_concat, List.dropLast_concat, featAt, getAt, takeAt]
  rfl

/-- Claim C1, counterexample: driver "A" scores 10 points in round 1 and the
target is round 2.  The offline path's feature row for (2024, round 2, "A")
has `drv_pts_to_date = 10`, but the live path built for round 2 attaches 0
— the value computed at the round-1 row. -/
theorem c1_counterexample :
    (featAt [mkRow 2024 1 "A" "T" 1 10, mkRow 2024 2 "A" "T" 1 25]
      1).drv_pts_to_date = 10
    ∧ (build_live_features_for_next_race
        [mkRow 2024 1 "A" "T" 1 10, mkRow 2024 2 "A" "T" 1 25] 2024 2
        [{ driver := "A", constructor := "T", grid := 1 }]).map
      LiveFeat.drv_pts_to_date = [0]
    ∧ (0 : ℚ) ≠ 10 := by
  refine ⟨?_, ?_, by norm_num⟩
  · norm_num [featAt, mkRow, sameDriver, cumsumMinusSelf]
  · norm_num [build_live_features_for_next_race, fetchUntil, mkRow,
      lastPtsToDate, cumsumMinusSelf, maxInt?]

/-- Witness for `c1_live_reuses_last_row`: two fetched rounds for driver "A",
target round 3 — the live features equal the offline values at the round-2
row. -/
theorem c1_witness :
    (build_live_features_for_next_race
        [mkRow 2024 1 "A" "T" 1 10, mkRow 2024 2 "A" "T" 1 25] 2024 3
        [{ driver := "A", constructor := "T", grid := 1 }]).map
        (fun f => (f.drv_pts_to_date, f.drv_roll_pts_5, f.drv_roll_pos_5, f.drv_roll_dnf_5))
      = [((featAt ([mkRow 2024 1 "A" "T" 1 10] ++ mkRow 2024 2 "A" "T" 1 25 :: [])
            1).drv_pts_to_date,
          (featAt ([mkRow 2024 1 "A" "T" 1 10] ++ mkRow 2024 2 "A" "T" 1 25 :: [])
            1).drv_roll_pts_5,
          (featAt ([mkRow 2024 1 "A" "T" 1 10] ++ mkRow 2024 2 "A" "T" 1 25 :: [])
            1).drv_roll_pos_5,
          (featAt ([mkRow 2024 1 "A" "T" 1 10] ++ mkRow 2024 2 "A" "T" 1 25 :: [])
            1).drv_roll_dnf_5)] :=
  c1_live_reuses_last_row
    [mkRow 2024 1 "A" "T" 1 10, mkRow 2024 2 "A" "T" 1 25] 2024 3
    { driver := "A", constructor := "T", grid := 1 }
    [mkRow 2024 1 "A" "T" 1 10] [] (mkRow 2024 2 "A" "T" 1 25)
    (by decide) (by decide) (by decide)

theorem fetchUntil_round (races : List Row) (s l : Int) :
    ∀ x ∈ fetchUntil races s l, ∃ y ∈ races, x.round = y.round := by
  intro x hx
  simp only [fetchUntil, List.mem_map, List.mem_filter] at hx
  obtain ⟨y, ⟨hy, _⟩, rfl⟩ := hx
  exact ⟨y, hy, rfl⟩

/-- Claim C5 (confirmed).  Live path: with no fetched history the feature
rows all carry `round_norm = 0`; with nonempty history (and the API's
1-based rounds) every feature row carries `round_norm = next_round / M`
where `M` is the maximum fetched round.  Offline path: a row's `round_norm`
is its round divided by the maximum round of its season group. -/
theorem c5_round_norm :
    (∀ (races : List Row) (season next_round : Int) (grid_rows : List GridRow),
      (fetchUntil races season (next_round - 1)).isEmpty = true →
      (build_live_features_for_next_race races season next_round grid_rows).map
          LiveFeat.round_norm
        = grid_rows.map (fun _ => 0))
    ∧ (∀ (races : List Row) (season next_round : Int) (grid_rows : List GridRow),
      (fetchUntil races season (next_round - 1)).isEmpty = false →
      (∀ x ∈ races, 1 ≤ x.round) →
      ∃ M : Int,
        M ∈ (fetchUntil races season (next_round - 1)).map Row.round
        ∧ (∀ v ∈ (fetchUntil races season (next_round - 1)).map Row.round, v ≤ M)
        ∧ 0 < M
        ∧ (build_live_features_for_next_race races season next_round grid_rows).map
            LiveFeat.round_norm
          = grid_rows.map (fun _ => (next_round : ℚ) / (M : ℚ)))
    ∧ (∀ (pre post : List Row) (r : Row),
      ∃ M : Int,
        M ∈ ((pre ++ r :: post).filter (fun x => sameSeason x r)).map Row.round
        ∧ (∀ v ∈ ((pre ++ r :: post).filter (fun x => sameSeason x r)).map Row.round, v ≤ M)
        ∧ (featAt (pre ++ r :: post) pre.length).round_norm
          = (r.round : ℚ) / (M : ℚ)) := by
  refine ⟨?_, ?_, ?_⟩
  · intro races season next_round grid_rows he
    simp only [build_live_features_for_next_race, he, if_true, List.map_map]
    rfl
  · intro races season next_round grid_rows hne hpos
    obtain ⟨h0, t0, hht⟩ : ∃ h t, fetchUntil races season (next_round - 1) = h :: t := by
      cases hev : fetchUntil races season (next_round - 1) with
      | nil => rw [hev] at hne; simp at hne
      | cons a b => exact ⟨a, b, rfl⟩
    have hfs : (fetchUntil races season (next_round - 1)).filter
        (fun r => r.season == season) = fetchUntil races season (next_round - 1) := by
      refine List.filter_eq_self.mpr ?_
      intro a ha
      simp [fetchUntil_season races season _ a ha]
    obtain ⟨M, hM, hmem, hle⟩ := maxInt?_spec h0.round (t0.map Row.round)
    have hrounds : (fetchUntil races season (next_round - 1)).map Row.round
        = h0.round :: t0.map Row.round := by rw [hht]; rfl
    have hMpos : 0 < M := by
      rw [← hrounds] at hmem
      obtain ⟨x, hx, hxr⟩ := List.mem_map.mp hmem
      obtain ⟨y, hy, hyr⟩ := fetchUntil_round races season (next_round - 1) x hx
      have := hpos y hy
      omega
    refine ⟨M, by rw [hrounds]; exact hmem, by rw [hrounds]; exact hle, hMpos, ?_⟩
    simp only [build_live_features_for_next_race, hne, Bool.false_eq_true, if_false,
      hfs, hrounds, hM, Option.getD_some, hMpos, if_true, List.map_map]
    rfl
  · intro pre post r
    have hrmem : r.round ∈ ((pre ++ r :: post).filter
        (fun x => sameSeason x r)).map Row.round := by
      refine List.mem_map_of_mem Row.round ?_
      refine List.mem_filter.mpr ⟨by simp, by simp [sameSeason]⟩
    obtain ⟨h0, t0, hht⟩ := List.exists_cons_of_ne_nil (List.ne_nil_of_mem hrmem)
    obtain ⟨M, hM, hmem, hle⟩ := maxInt?_spec h0 t0
    refine ⟨M, by rw [hht]; exact hmem, by rw [hht]; exact hle, ?_⟩
    simp only [featAt, getAt, takeAt, hht, hM, Option.getD_some]

/-- Witness for `c5_round_norm`: no history gives `round_norm = 0`; target
round 5 over a history whose maximum round is 4 gives 5/4 (the claimed
example); an offline row at round 2 of a three-round season gives 2/3. -/
theorem c5_witness :
    (build_live_features_for_next_race [] 2024 1
        [{ driver := "A", constructor := "T", grid := 1 }]).map
      LiveFeat.round_norm = [0]
    ∧ (build_live_features_for_next_race [mkRow 2024 4 "A" "T" 1 10] 2024 5
        [{ driver := "A", constructor := "T", grid := 1 }]).map
      LiveFeat.round_norm = [5 / 4]
    ∧ (featAt ([mkRow 2024 1 "A" "T" 1 10]
        ++ mkRow 2024 2 "A" "T" 1 0 :: [mkRow 2024 3 "B" "T" 2 4]) 1).round_norm
      = 2 / 3 := by
  refine ⟨?_, ?_, ?_⟩
  · exact c5_round_norm.1 [] 2024 1 _ (by decide)
  · obtain ⟨M, hM, hle, hpos, hmap⟩ := c5_round_norm.2.1 [mkRow 2024 4 "A" "T" 1 10]
      2024 5 [{ driver := "A", constructor := "T", grid := 1 }] (by decide) (by decide)
    have hM4 : M = 4 := by
      simpa [fetchUntil, mkRow] using hM
    rw [hM4] at hmap
    refine hmap.trans ?_
    norm_num
  · obtain ⟨M, hM, hle, heq⟩ := c5_round_norm.2.2 [mkRow 2024 1 "A" "T" 1 10]
      [mkRow 2024 3 "B" "T" 2 4] (mkRow 2024 2 "A" "T" 1 0)
    have hb : (3 : Int) ≤ M := by
      refine hle 3 ?_
      decide
    have hm : M = 1 ∨ M = 2 ∨ M = 3 := by
      simpa [mkRow, sameSeason] using hM
    have hM3 : M = 3 := by
      rcases hm with h | h | h <;> omega
    rw [hM3] at heq
    refine heq.trans ?_
    norm_num [mkRow]

theorem err_unknown_mem (canon : List (String × String)) :
    ∀ (rows : List UserRow) (i0 k : Nat) (r : UserRow),
      rows.get? k = some r → canon.lookup (drvName r) = none →
      (⟨i0 + k, drvName r, "unknown_driver"⟩ : VErr) ∈ (validateFrom canon i0 rows).2 := by
  intro rows
  induction rows with
  | nil =>
    intro i0 k r hk
    simp at hk
  | cons a t ih =>
    intro i0 k r hk hl
    cases k with
    | zero =>
      have ha : a = r := by simpa using hk
      subst ha
      simp [validateFrom, hl]
    | succ k2 =>
      have hrec := ih (i0 + 1) k2 r (by simpa using hk) hl
      have hidx : i0 + (k2 + 1) = (i0 + 1) + k2 := by omega
      rw [hidx]
      simp only [validateFrom]
      cases hc : canon.lookup (drvName a) with
      | none => exact List.mem_cons_of_mem _ hrec
      | some team =>
        cases hg : pyInt a.grid with
        | none => exact List.mem_cons_of_mem _ hrec
        | some g => exact hrec

theorem err_invalid_grid_mem (canon : List (String × String)) :
    ∀ (rows : List UserRow) (i0 k : Nat) (r : UserRow) (team : String),
      rows.get? k = some r → canon.lookup (drvName r) = some team →
      pyInt r.grid = none →
      (⟨i0 + k, drvName r, "invalid_grid"⟩ : VErr) ∈ (validateFrom canon i0 rows).2 := by
  intro rows
  induction rows with
  | nil =>
    intro i0 k r team hk
    simp at hk
  | cons a t ih =>
    intro i0 k r team hk hl hg
    cases k with
    | zero =>
      have ha : a = r := by simpa using hk
      subst ha
      simp [validateFrom, hl, hg]
    | succ k2 =>
      have hrec := ih (i0 + 1) k2 r team (by simpa using hk) hl hg
      have hidx : i0 + (k2 + 1) = (i0 + 1) + k2 := by omega
      rw [hidx]
      simp only [validateFrom]
      cases hc : canon.lookup (drvName a) with
      | none => exact List.mem_cons_of_mem _ hrec
      | some team2 =>
        cases hg2 : pyInt a.grid with
        | none => exact List.mem_cons_of_mem _ hrec
        | some g => exact hrec

/-- Claim C6 (confirmed).  In the predict-with-grid handler, an entry whose
stripped driver name is missing from the canonical map contributes an
`unknown_driver` error carrying its index, an entry whose grid value `int()`
rejects contributes an `invalid_grid` error carrying its index, and whenever
any errors exist the whole request is answered with the full error list and
no predictions, regardless of the other entries. -/
theorem c6_validation :
    (∀ (canon : List (String × String)) (user_rows : List UserRow) (k : Nat) (r : UserRow),
      user_rows.get? k = some r → canon.lookup (drvName r) = none →
      (⟨k, drvName r, "unknown_driver"⟩ : VErr) ∈ (validate canon user_rows).2)
    ∧ (∀ (canon : List (String × String)) (user_rows : List UserRow) (k : Nat)
        (r : UserRow) (team : String),
      user_rows.get? k = some r → canon.lookup (drvName r) = some team →
      pyInt r.grid = none →
      (⟨k, drvName r, "invalid_grid"⟩ : VErr) ∈ (validate canon user_rows).2)
    ∧ (∀ (races : List Row) (season next_round : Int) (predictProb : List ℚ → ℚ)
        (canon : List (String × String)) (user_rows : List UserRow),
      user_rows.isEmpty = false → canon.isEmpty = false →
      (validate canon user_rows).2 ≠ [] →
      predict_next_race_with_grid races season next_round canon user_rows predictProb
        = Response.validationFailed (validate canon user_rows).2) := by
  refine ⟨?_, ?_, ?_⟩
  · intro canon user_rows k r hk hl
    have := err_unknown_mem canon user_rows 0 k r hk hl
    simpa [validate] using this
  · intro canon user_rows k r team hk hl hg
    have := err_invalid_grid_mem canon user_rows 0 k r team hk hl hg
    simpa [validate] using this
  · intro races season next_round predictProb canon user_rows hrows hcanon herr
    have hev : (validate canon user_rows).2.isEmpty = false := by
      cases hv : (validate canon user_rows).2 with
      | nil => exact absurd hv herr
      | cons a t => rfl
    simp only [predict_next_race_with_grid, hrows, hcanon, hev,
      Bool.false_eq_true, if_false]

/-- Witness for `c6_validation`: a three-entry request against the canonical
map {"Max Verstappen" ↦ "Red Bull"} — entry 1 has an unknown driver, entry 2
a null grid; both errors are reported and the whole request is rejected. -/
theorem c6_witness :
    (⟨1, "Nobody", "unknown_driver"⟩ : VErr) ∈ (validate [("Max Verstappen", "Red Bull")]
      [⟨some "Max Verstappen", .jint 1, none⟩,
       ⟨some "Nobody", .jint 2, some "Ferrari"⟩,
       ⟨some "Max Verstappen", .jnull, none⟩]).2
    ∧ (⟨2, "Max Verstappen", "invalid_grid"⟩ : VErr) ∈ (validate [("Max Verstappen", "Red Bull")]
      [⟨some "Max Verstappen", .jint 1, none⟩,
       ⟨some "Nobody", .jint 2, some "Ferrari"⟩,
       ⟨some "Max Verstappen", .jnull, none⟩]).2
    ∧ predict_next_race_with_grid [] 2024 1 [("Max Verstappen", "Red Bull")]
        [⟨some "Max Verstappen", .jint 1, none⟩,
         ⟨some "Nobody", .jint 2, some "Ferrari"⟩,
         ⟨some "Max Verstappen", .jnull, none⟩] (fun _ => 1 / 2)
      = Response.validationFailed (validate [("Max Verstappen", "Red Bull")]
        [⟨some "Max Verstappen", .jint 1, none⟩,
         ⟨some "Nobody", .jint 2, some "Ferrari"⟩,
         ⟨some "Max Verstappen", .jnull, none⟩]).2 := by
  refine ⟨?_, ?_, ?_⟩
  · exact c6_validation.1 [("Max Verstappen", "Red Bull")] _ 1
      ⟨some "Nobody", .jint 2, some "Ferrari"⟩ (by decide) (by decide)
  · exact c6_validation.2.1 [("Max Verstappen", "Red Bull")] _ 2
      ⟨some "Max Verstappen", .jnull, none⟩ "Red Bull" (by decide) (by decide) (by decide)
  · exact c6_validation.2.2 [] 2024 1 (fun _ => 1 / 2) [("Max Verstappen", "Red Bull")] _
      (by decide) (by decide) (by decide)

theorem validateFrom_proj (canon : List (String × String)) :
    ∀ (rows1 rows2 : List UserRow) (i0 : Nat),
      rows1.length = rows2.length →
      (∀ k, (rows1.get? k).map (fun r => (r.driver, r.grid))
          = (rows2.get? k).map (fun r => (r.driver, r.grid))) →
      validateFrom canon i0 rows1 = validateFrom canon i0 rows2 := by
  intro rows1
  induction rows1 with
  | nil =>
    intro rows2 i0 hlen hproj
    cases rows2 with
    | nil => rfl
    | cons b t2 => simp at hlen
  | cons a t ih =>
    intro rows2 i0 hlen hproj
    cases rows2 with
    | nil => simp at hlen
    | cons b t2 =>
      have h0 := hproj 0
      simp only [List.get?, Option.map_some] at h0
      have hd : a.driver = b.driver := congrArg Prod.fst (Option.some.inj h0)
      have hg : a.grid = b.grid := congrArg Prod.snd (Option.some.inj h0)
      have ht := ih t2 (i0 + 1) (by simpa using hlen) (fun k => hproj (k + 1))
      have hdn : drvName a = drvName b := by rw [drvName, drvName, hd]
      have hpy : pyInt a.grid = pyInt b.grid := by rw [hg]
      simp only [validateFrom, hdn, hpy, ht]

/-- Claim C8 (confirmed): the response of the predict-with-grid handler is
independent of any caller-supplied constructor value — two entry lists that
agree on driver and grid at every index (and may differ arbitrarily in their
constructor fields) produce identical responses, because the constructor of
each validated entry is always taken from the canonical map. -/
theorem c8_constructor_independence (races : List Row) (season next_round : Int)
    (canon : List (String × String)) (predictProb : List ℚ → ℚ)
    (rows1 rows2 : List UserRow)
    (hlen : rows1.length = rows2.length)
    (hproj : ∀ k, (rows1.get? k).map (fun r => (r.driver, r.grid))
      = (rows2.get? k).map (fun r => (r.driver, r.grid))) :
    predict_next_race_with_grid races season next_round canon rows1 predictProb
      = predict_next_race_with_grid races season next_round canon rows2 predictProb := by
  have hv := validateFrom_proj canon rows1 rows2 0 hlen hproj
  have hemp : rows1.isEmpty = rows2.isEmpty := by
    cases rows1 <;> cases rows2 <;> first | rfl | simp at hlen
  simp only [predict_next_race_with_grid, hemp, validate, hv]

/-- Witness for `c8_constructor_independence`: two single-entry requests
whose rows differ only in the caller-supplied constructor ("Ferrari" vs
"Mercedes") produce the same response. -/
theorem c8_witness :
    predict_next_race_with_grid [] 2024 1 [("Max Verstappen", "Red Bull")]
        [⟨some "Max Verstappen", .jint 1, some "Ferrari"⟩] (fun _ => 1 / 2)
      = predict_next_race_with_grid [] 2024 1 [("Max Verstappen", "Red Bull")]
        [⟨some "Max Verstappen", .jint 1, some "Mercedes"⟩] (fun _ => 1 / 2) :=
  c8_constructor_independence [] 2024 1 [("Max Verstappen", "Red Bull")] (fun _ => 1 / 2)
    [⟨some "Max Verstappen", .jint 1, some "Ferrari"⟩]
    [⟨some "Max Verstappen", .jint 1, some "Mercedes"⟩]
    rfl (fun k => by cases k <;> rfl)

/-- The frames the season loop of `src/backend/fetch_data.py` collects: for
each year in order, the fetched table when the fetch returned one and it is
nonempty. -/
def okFrames (f : Int → FetchOutcome) (years : List Int) : List (List Row) :=
  years.filterMap (fun y => match f y with
    | .ok df => if df.isEmpty then none else some df
    | _ => none)

theorem fetchSeasons_eq_okFrames (f : Int → FetchOutcome) :
    ∀ years : List Int, (∀ y ∈ years, ∀ m, f y ≠ .netError m) →
      fetchSeasons f years = some (okFrames f years) := by
  intro years
  induction years with
  | nil =>
    intro h
    rfl
  | cons y ys ih =>
    intro h
    have hrec := ih (fun z hz m => h z (List.mem_cons_of_mem _ hz) m)
    cases hf : f y with
    | ok df =>
      simp only [fetchSeasons, hf, hrec, Option.map_some]
      simp only [okFrames, List.filterMap_cons, hf]
      cases hemp : df.isEmpty <;> simp [hemp, okFrames]
    | httpError m =>
      simp only [fetchSeasons, hf, okFrames, List.filterMap_cons]
      rw [hrec]
      rfl
    | netError m => exact absurd hf (h y (List.mem_cons_self y ys) m)

/-- Claim C9 (corrected): when every failure in the fetched range is an HTTP
error response (`requests.HTTPError`), failed seasons are skipped and the
combined output holds exactly the nonempty tables of the seasons that
succeeded, each of which appears in it.  (Non-HTTP network failures —
connection errors, timeouts — are not caught and abort the whole run; see
the counterexample.) -/
theorem c9_http_skip (f : Int → FetchOutcome) (years : List Int)
    (h : ∀ y ∈ years, ∀ m, f y ≠ .netError m) :
    fetchSeasons f years = some (okFrames f years)
    ∧ ∀ y ∈ years, ∀ df : List Row, f y = .ok df → df.isEmpty = false →
        df ∈ okFrames f years := by
  refine ⟨fetchSeasons_eq_okFrames f years h, ?_⟩
  intro y hy df hfy hne
  refine List.mem_filterMap.mpr ⟨y, hy, ?_⟩
  simp [hfy, hne]

/-- Claim C9, counterexample: a connection error (not an `HTTPError`) while
fetching 2018 aborts the loop, so 2019's successfully fetched results never
reach the combined output — fetching 2019 alone would have produced them. -/
theorem c9_counterexample :
    fetchSeasons
        (fun y => if y = 2018 then FetchOutcome.netError "connection refused"
          else FetchOutcome.ok [mkRow 2019 1 "A" "T" 1 10]) [2018, 2019]
      = none
    ∧ (fun y => if y = 2018 then FetchOutcome.netError "connection refused"
          else FetchOutcome.ok [mkRow 2019 1 "A" "T" 1 10]) 2019
      = FetchOutcome.ok [mkRow 2019 1 "A" "T" 1 10]
    ∧ fetchSeasons
        (fun y => if y = 2018 then FetchOutcome.netError "connection refused"
          else FetchOutcome.ok [mkRow 2019 1 "A" "T" 1 10]) [2019]
      = some [[mkRow 2019 1 "A" "T" 1 10]] := by
  refine ⟨by decide, by decide, by decide⟩

/-- Witness for `c9_http_skip`: an HTTP 404 for 2018 is skipped and 2019's
table is in the combined output. -/
theorem c9_witness :
    fetchSeasons
        (fun y => if y = 2018 then FetchOutcome.httpError "404"
          else FetchOutcome.ok [mkRow 2019 1 "A" "T" 1 10]) [2018, 2019]
      = some (okFrames
        (fun y => if y = 2018 then FetchOutcome.httpError "404"
          else FetchOutcome.ok [mkRow 2019 1 "A" "T" 1 10]) [2018, 2019])
    ∧ [mkRow 2019 1 "A" "T" 1 10] ∈ okFrames
        (fun y => if y = 2018 then FetchOutcome.httpError "404"
          else FetchOutcome.ok [mkRow 2019 1 "A" "T" 1 10]) [2018, 2019] := by
  have hno : ∀ y ∈ ([2018, 2019] : List Int), ∀ m : String,
      (fun y => if y = 2018 then FetchOutcome.httpError "404"
        else FetchOutcome.ok [mkRow 2019 1 "A" "T" 1 10]) y
        ≠ FetchOutcome.netError m := by
    intro y hy m
    have hc : y = 2018 ∨ y = 2019 := by simpa using hy
    rcases hc with rfl | rfl <;> simp
  refine ⟨(c9_http_skip _ [2018, 2019] hno).1, ?_⟩
  exact (c9_http_skip _ [2018, 2019] hno).2 2019 (by decide)
    [mkRow 2019 1 "A" "T" 1 10] (by decide) (by decide)

theorem median_isSome (xs : List ℚ) (h : xs ≠ []) : ∃ m, median xs = some m := by
  have hlen : (xs.insertionSort (· ≤ ·)).length = xs.length :=
    List.length_insertionSort _ _
  have hpos : 0 < xs.length := List.length_pos.mpr h
  simp only [median]
  have h0 : ¬(xs.insertionSort (· ≤ ·)).length = 0 := by omega
  rw [if_neg h0]
  by_cases hodd : (xs.insertionSort (· ≤ ·)).length % 2 = 1
  · rw [if_pos hodd]
    have hlt : (xs.insertionSort (· ≤ ·)).length / 2 < (xs.insertionSort (· ≤ ·)).length :=
      Nat.div_lt_self (by omega) (by omega)
    exact ⟨_, List.get?_eq_get hlt⟩
  · rw [if_neg hodd]
    have h1 : (xs.insertionSort (· ≤ ·)).length / 2 - 1 < (xs.insertionSort (· ≤ ·)).length := by
      have := Nat.div_lt_self (n := (xs.insertionSort (· ≤ ·)).length) (by omega) (by omega : 1 < 2)
      omega
    have h2 : (xs.insertionSort (· ≤ ·)).length / 2 < (xs.insertionSort (· ≤ ·)).length :=
      Nat.div_lt_self (by omega) (by omega)
    rw [List.get?_eq_get h1, List.get?_eq_get h2]
    exact ⟨_, rfl⟩

theorem buildFeatures_get? (rows : List Row) (i : Nat) (hi : i < rows.length) :
    (buildFeatures rows).get? i = some (featAt rows i) := by
  simp only [buildFeatures]
  rw [List.get?_eq_getElem?, List.getElem?_map, List.getElem?_range hi]
  rfl

/-- Claim C10 (confirmed).  In the offline builder, as long as at least one
grid value is present in the table, a missing grid cell in a feature row is
filled with the median of all the present grid values — not with zero —
while a present grid cell passes through; and the rolling features of a row
with no prior same-group rows (left NaN by the shifted rolling mean) are the
values the final `fillna(0)` zeroes. -/
theorem c10_grid_median_fill :
    (∀ rows : List Row, rows.filterMap Row.grid ≠ [] →
      ∃ m, median (rows.filterMap Row.grid) = some m
        ∧ ∀ (i : Nat) (r : Row), rows.get? i = some r →
          ∃ fr, (buildFeatures rows).get? i = some fr
            ∧ fr.grid = (match r.grid with | some g => g | none => m))
    ∧ (∀ (rows : List Row) (i : Nat) (r : Row), rows.get? i = some r →
      (rows.take i).filter (fun x => sameDriver x r) = [] →
      ∃ fr, (buildFeatures rows).get? i = some fr
        ∧ fr.drv_roll_pts_5 = 0 ∧ fr.drv_roll_pos_5 = 0 ∧ fr.drv_roll_dnf_5 = 0) := by
  constructor
  · intro rows hne
    obtain ⟨m, hm⟩ := median_isSome _ hne
    refine ⟨m, hm, ?_⟩
    intro i r hri
    have hi : i < rows.length := by
      rcases List.get?_eq_some.mp hri with ⟨hlt, _⟩
      exact hlt
    refine ⟨featAt rows i, buildFeatures_get? rows i hi, ?_⟩
    have hri2 : rows[i]? = some r := by
      rw [← List.get?_eq_getElem?]
      exact hri
    cases hg : r.grid with
    | some g => simp [featAt, hri2, hg]
    | none => simp [featAt, hri2, hg, hm]
  · intro rows i r hri hprior
    have hi : i < rows.length := by
      rcases List.get?_eq_some.mp hri with ⟨hlt, _⟩
      exact hlt
    have hri2 : rows[i]? = some r := by
      rw [← List.get?_eq_getElem?]
      exact hri
    refine ⟨featAt rows i, buildFeatures_get? rows i hi, ?_⟩
    simp [featAt, hri2, hprior, shiftRoll5]

/-- Witness for `c10_grid_median_fill`: a two-row table whose second row has
a missing grid — the feature row gets the median (1) of the present grid
values, and the first row of the driver group has zeroed rolling features. -/
theorem c10_witness :
    (∃ fr : FeatRow,
      (buildFeatures [mkRow 2024 1 "A" "T" 1 10,
        { mkRow 2024 2 "B" "T" 2 4 with grid := none }]).get? 1 = some fr
      ∧ fr.grid = 1)
    ∧ (∃ fr : FeatRow,
      (buildFeatures [mkRow 2024 1 "A" "T" 1 10,
        { mkRow 2024 2 "B" "T" 2 4 with grid := none }]).get? 0 = some fr
      ∧ fr.drv_roll_pts_5 = 0 ∧ fr.drv_roll_pos_5 = 0 ∧ fr.drv_roll_dnf_5 = 0) := by
  constructor
  · obtain ⟨m, hm, hall⟩ := c10_grid_median_fill.1
      [mkRow 2024 1 "A" "T" 1 10, { mkRow 2024 2 "B" "T" 2 4 with grid := none }]
      (by decide)
    have hmed : median (List.filterMap Row.grid
        [mkRow 2024 1 "A" "T" 1 10,
         { mkRow 2024 2 "B" "T" 2 4 with grid := none }]) = some 1 := by decide
    rw [hmed] at hm
    have hm1 : m = 1 := (Option.some.inj hm).symm
    subst hm1
    obtain ⟨fr, hfr, hgrid⟩ := hall 1
      { mkRow 2024 2 "B" "T" 2 4 with grid := none } (by decide)
    exact ⟨fr, hfr, hgrid⟩
  · obtain ⟨fr, hfr, h1, h2, h3⟩ := c10_grid_median_fill.2
      [mkRow 2024 1 "A" "T" 1 10, { mkRow 2024 2 "B" "T" 2 4 with grid := none }]
      0 (mkRow 2024 1 "A" "T" 1 10) (by decide) (by decide)
    exact ⟨fr, hfr, h1, h2, h3⟩

/-- Claim C2 (confirmed): for every status string, the derived DNF flag is 1
exactly when the lowercased status contains none of the substrings
`"finish"`, `"+"` and `"lap"`, and the offline builder (`finished_mask` /
`dnf` in `build_features.py`) and the live path (`status_to_dnf` in
`app.py`) compute the same function of the status. -/
theorem c2_dnf_flag (s : String) :
    (status_to_dnf s = 1 ↔
      ¬(pyContains (pyLower s) "finish" = true ∨
        pyContains (pyLower s) "+" = true ∨
        pyContains (pyLower s) "lap" = true))
    ∧ dnfFlag s = status_to_dnf s := by
  refine ⟨?_, dnf_eq s⟩
  by_cases h1 : pyContains (pyLower s) "finish" = true <;>
    by_cases h2 : pyContains (pyLower s) "+" = true <;>
      by_cases h3 : pyContains (pyLower s) "lap" = true <;>
        simp [status_to_dnf, h1, h2, h3]
